import Mathlib

/-!
Shallow embedding of the libauth vmb-test generation fragment:
`src/lib/vmb-tests/bch-vmb-test-utils.ts` and the generation script that
flattens the master test list and writes the partitioned JSON files.

External collaborators (the script compiler's `generateScenario`, the codec
functions `encodeTransaction`, `encodeTransactionOutputs`, `binToHex`, the
crypto functions `sha256.hash`, `regroupBits`, `encodeBech32`, and
`JSON.stringify`) are not part of this fragment; they appear as abstract
parameters.  JavaScript objects keyed by strings are embedded as association
lists: object-literal construction with spreads is `++` with a last-binding-wins
lookup (`objGetLast`), while lookup in an object with unique keys is first-match
lookup (`objGet`), and `obj[k] = v` on the partition accumulator is
`objUpsertAppend` (updating in place, appending new keys at the end, which is
the JavaScript key-insertion order).  Exceptions thrown by the generator are
embedded as `Except String`.
-/

namespace VmbTests

/-- The `mode` field of a test-plan item: `'nonP2SH' | 'P2SH20' | 'P2SH32'`. -/
inductive Mode where
  | nonP2SH
  | P2SH20
  | P2SH32
deriving DecidableEq, Repr

/-- The string interpolated for a mode in a test description (`planItem.mode`). -/
def modeName : Mode → String
  | Mode.nonP2SH => "nonP2SH"
  | Mode.P2SH20 => "P2SH20"
  | Mode.P2SH32 => "P2SH32"

/-- One entry of a `TestPlan`: `{ mode: ...; sets: TestSetIdBCH[] }`. -/
structure TestPlanItem where
  mode : Mode
  sets : List String
deriving DecidableEq, Repr

/-- `TestPlan` from the source: a list of mode/test-set-id pairs. -/
abbrev TestPlan := List TestPlanItem

/-- A script entry of an authentication template's `scripts` object: the three
fields used by this file (`lockingType`, `script`, `unlocks`). -/
structure ScriptDef where
  lockingType : Option String
  script : String
  unlocks : Option String
deriving DecidableEq, Repr

/-- The varying parts of the authentication template passed (through
`authenticationTemplateToCompilerConfiguration` and `createCompilerBCH`) to the
external compiler: the test definition's scenario override (spread into the
`test` scenario, over `extends: 'vmb_default'`) and the `scripts` object.  The
constant parts (`entities`, the `vmb_default` scenario `slot1Scenario`,
`supported: ['BCH_2022_05']`, `version: 0`) carry no information and are
omitted.  `S` is the abstract type of `AuthenticationTemplateScenario`. -/
structure Template (S : Type) where
  scenarioOverride : Option S
  scripts : List (String × ScriptDef)

/-- Outcome of `compiler.generateScenario`: the call either returns a string
(first error check), an object whose `scenario` is a string (second error
check), or a scenario whose `program` provides the transaction, the source
outputs and the input index.  `Tx` and `Outs` are the abstract transaction and
source-output types consumed by the external encoders. -/
inductive GenerateScenarioResult (Tx Outs : Type) where
  | stringError (message : String)
  | scenarioStringError (message : String)
  | success (transaction : Tx) (sourceOutputs : Outs) (inputIndex : Nat)

/-- The external codec and crypto entry points used by the generator.  Byte
arrays (`Uint8Array`) are `List Nat`.  `regroupBits` takes the source bytes,
the `resultWordLength` and the `sourceWordLength`. -/
structure Codec (Tx Outs : Type) where
  encodeTransaction : Tx → List Nat
  encodeTransactionOutputs : Outs → List Nat
  sha256hash : List Nat → List Nat
  regroupBits : List Nat → Nat → Nat → List Nat
  encodeBech32 : List Nat → String
  binToHex : List Nat → String

/-- `VmbTestMasterBCH`: a master test vector.  The optional trailing
`inputIndex` tuple element is an `Option` field (`none` = element omitted). -/
structure VmbTestMasterBCH where
  shortId : String
  testDescription : String
  unlockingScriptAsm : String
  redeemOrLockingScriptAsm : String
  testTransactionHex : String
  sourceOutputsHex : String
  testSets : List String
  inputIndex : Option Nat
deriving DecidableEq, Repr

/-- `VmbTest`: a partitioned test vector (a master vector without `testSets`). -/
structure VmbTest where
  shortId : String
  testDescription : String
  unlockingScriptAsm : String
  redeemOrLockingScriptAsm : String
  testTransactionHex : String
  sourceOutputsHex : String
  inputIndex : Option Nat
deriving DecidableEq, Repr

/-- `VmbTestDefinition`: the compact test definition tuple.  Optional tuple
elements are `Option` fields; `S` is the abstract scenario-override type. -/
structure VmbTestDefinition (S : Type) where
  unlockingScript : String
  redeemOrLockingScript : String
  testDescription : String
  testSetOverrideLabels : Option (List String)
  scenarioOverride : Option S
  additionalScripts : Option (List (String × ScriptDef))

/-- First-match lookup in an association list; embeds JavaScript property
access `obj[k]` for objects whose keys are unique (such as the object literal
`supportedTestSetOverridesBCH` and the partition accumulator). -/
def objGet {V : Type} : List (String × V) → String → Option V
  | [], _ => none
  | (k, v) :: rest, key => if k = key then some v else objGet rest key

/-- Last-binding-wins lookup in an association list; embeds property access on
an object built by an object literal with spreads (`{ ...a, k: v, ... }`),
where later bindings overwrite earlier ones. -/
def objGetLast {V : Type} : List (String × V) → String → Option V
  | [], _ => none
  | (k, v) :: rest, key =>
    match objGetLast rest key with
    | some w => some w
    | none => if k = key then some v else none

/-- Embeds `obj[k] = [...(obj[k] ?? []), v]` on a JavaScript object: an
existing key keeps its position and has `v` appended to its list; a new key is
appended at the end (JavaScript key-insertion order). -/
def objUpsertAppend {V : Type} : List (String × List V) → String → V → List (String × List V)
  | [], key, v => [(key, [v])]
  | (k, vs) :: rest, key, v =>
    if k = key then (k, vs ++ [v]) :: rest else (k, vs) :: objUpsertAppend rest key v

/-- Modelled from the spec: `flattenBinArray` (from the `format` module, which
is not included under `src/`) concatenates binary arrays; the spec describes
the short identifier as "hashing the encoded transaction and source outputs",
i.e. hashing their concatenation. -/
def flattenBinArray (bins : List (List Nat)) : List Nat := bins.flatten

/-- Embeds `JavaScript`'s `String.prototype.includes` on character lists:
`pat` occurs as a contiguous substring. -/
def hasSubstr (pat : List Char) : List Char → Bool
  | [] => pat.isPrefixOf []
  | c :: cs => pat.isPrefixOf (c :: cs) || hasSubstr pat cs

/-- `s.includes(pat)` for strings. -/
def containsSubstrB (s pat : String) : Bool := hasSubstr pat.data s.data

/-- `supportedTestSetOverridesBCH`: the static table from joined override-label
lists to test plans, transcribed entry for entry in source order. -/
def supportedTestSetOverridesBCH : List (String × TestPlan) :=
  [("",
    [{ mode := Mode.nonP2SH, sets := ["2021_nonstandard", "2022_nonstandard"] },
     { mode := Mode.P2SH20, sets := ["2021_standard", "2022_standard"] }]),
   ("2021_invalid",
    [{ mode := Mode.nonP2SH, sets := ["2021_invalid", "2022_nonstandard"] },
     { mode := Mode.P2SH20, sets := ["2021_invalid", "2022_standard"] }]),
   ("2021_invalid,2022_nonstandard",
    [{ mode := Mode.nonP2SH, sets := ["2021_invalid", "2022_nonstandard"] },
     { mode := Mode.P2SH20, sets := ["2021_invalid", "2022_nonstandard"] }]),
   ("2021_invalid,2022_nonstandard,p2sh_ignore",
    [{ mode := Mode.nonP2SH, sets := ["2021_invalid", "2022_nonstandard"] }]),
   ("2021_invalid,nonP2sh20_invalid",
    [{ mode := Mode.nonP2SH, sets := ["2021_invalid", "2022_invalid"] },
     { mode := Mode.P2SH20, sets := ["2021_invalid", "2022_standard"] }]),
   ("2021_invalid,nonP2sh_invalid",
    [{ mode := Mode.nonP2SH, sets := ["2021_invalid", "2022_invalid"] },
     { mode := Mode.P2SH20, sets := ["2021_invalid", "2022_standard"] }]),
   ("2021_invalid,p2sh_ignore",
    [{ mode := Mode.nonP2SH, sets := ["2021_invalid", "2022_nonstandard"] }]),
   ("2021_invalid,p2sh_invalid",
    [{ mode := Mode.nonP2SH, sets := ["2021_invalid", "2022_nonstandard"] },
     { mode := Mode.P2SH20, sets := ["2021_invalid", "2022_invalid"] }]),
   ("invalid",
    [{ mode := Mode.nonP2SH, sets := ["2021_invalid", "2022_invalid"] },
     { mode := Mode.P2SH20, sets := ["2021_invalid", "2022_invalid"] }]),
   ("invalid,2022_nonP2sh_nonstandard",
    [{ mode := Mode.nonP2SH, sets := ["2021_invalid", "2022_nonstandard"] },
     { mode := Mode.P2SH20, sets := ["2021_invalid", "2022_invalid"] }]),
   ("invalid,2022_p2sh_standard",
    [{ mode := Mode.nonP2SH, sets := ["2021_invalid", "2022_invalid"] },
     { mode := Mode.P2SH20, sets := ["2021_invalid", "2022_standard"] }]),
   ("invalid,nonP2sh_nonstandard",
    [{ mode := Mode.nonP2SH, sets := ["2021_nonstandard", "2022_nonstandard"] },
     { mode := Mode.P2SH20, sets := ["2021_invalid", "2022_invalid"] }]),
   ("invalid,p2sh_ignore",
    [{ mode := Mode.nonP2SH, sets := ["2021_invalid", "2022_invalid"] }]),
   ("nonstandard",
    [{ mode := Mode.nonP2SH, sets := ["2021_nonstandard", "2022_nonstandard"] },
     { mode := Mode.P2SH20, sets := ["2021_nonstandard", "2022_nonstandard"] }]),
   ("nonstandard,p2sh_invalid",
    [{ mode := Mode.nonP2SH, sets := ["2021_nonstandard", "2022_nonstandard"] },
     { mode := Mode.P2SH20, sets := ["2021_invalid", "2022_invalid"] }])]

/-- `defaultShortIdLength = 5`. -/
def defaultShortIdLength : Nat := 5

/-- `planTestsBCH`: joins the given labels (or `[]` when absent) with `','`
and looks the result up in `supportedTestSetOverridesBCH`.  The source applies
a non-null assertion (`!`) to the lookup; the `undefined` case is kept here as
`none` and handled where the source would crash. -/
def planTestsBCH (labels : Option (List String)) : Option TestPlan :=
  objGet supportedTestSetOverridesBCH (String.intercalate "," (labels.getD []))

/-- The `unlockingScriptId` selected for a plan item's mode in the
`generateScenario` call: `{ P2SH20: 'unlockP2sh20', P2SH32: 'unlockP2sh32',
nonP2SH: 'unlockStandard' }[planItem.mode]`. -/
def unlockingScriptIdForMode : Mode → String
  | Mode.P2SH20 => "unlockP2sh20"
  | Mode.P2SH32 => "unlockP2sh32"
  | Mode.nonP2SH => "unlockStandard"

/-- The authentication template built by `vmbTestDefinitionToVmbTests`:
scenario override as given, and the `scripts` object literal, which spreads
`additionalScripts` first and then writes the nine built-in entries (so a
built-in name always wins under `objGetLast`). -/
def vmbTestTemplate {S : Type} (d : VmbTestDefinition S) : Template S :=
  { scenarioOverride := d.scenarioOverride,
    scripts :=
      d.additionalScripts.getD [] ++
        [("lockEmptyP2sh20", ⟨some "p2sh20", "", none⟩),
         ("lockP2pkh",
          ⟨some "standard",
           "OP_DUP OP_HASH160 <$(<key1.public_key> OP_HASH160)> OP_EQUALVERIFY OP_CHECKSIG",
           none⟩),
         ("lockP2sh20", ⟨some "p2sh20", d.redeemOrLockingScript, none⟩),
         ("lockStandard", ⟨some "standard", d.redeemOrLockingScript, none⟩),
         ("unlockEmptyP2sh20", ⟨none, "<1>", some "lockEmptyP2sh20"⟩),
         ("unlockP2pkh",
          ⟨none,
           "<key1.schnorr_signature.corresponding_output_single_input> <key1.public_key>",
           some "lockP2pkh"⟩),
         ("unlockP2sh20", ⟨none, d.unlockingScript, some "lockP2sh20"⟩),
         ("unlockStandard", ⟨none, d.unlockingScript, some "lockStandard"⟩),
         ("vmbTestNullData", ⟨some "standard", "OP_RETURN <\"vmb_test\">", none⟩)] }

/-- `Array.prototype.map` over a callback that may throw: the first thrown
error aborts the whole map. -/
def mapThrow {α β : Type} (f : α → Except String β) : List α → Except String (List β)
  | [] => Except.ok []
  | a :: rest =>
    match f a with
    | Except.error e => Except.error e
    | Except.ok b =>
      match mapThrow f rest with
      | Except.error e => Except.error e
      | Except.ok bs => Except.ok (b :: bs)

/-- The body of the `testGenerationPlan.map` callback in
`vmbTestDefinitionToVmbTests`: build the description, call the compiler's
`generateScenario` with the mode's unlocking-script id, throw on either error
shape, otherwise encode the transaction and source outputs, derive the
bech32 short id, and assemble the master test vector (the `inputIndex` element
is omitted when the program's input index is `0`). -/
def vmbTestForPlanItem {S Tx Outs : Type} (C : Codec Tx Outs)
    (generateScenario : Template S → String → GenerateScenarioResult Tx Outs)
    (d : VmbTestDefinition S) (groupName : String) (shortIdLength : Nat)
    (planItem : TestPlanItem) : Except String VmbTestMasterBCH :=
  let description :=
    groupName ++ ": " ++ d.testDescription ++ " (" ++ modeName planItem.mode ++ ")"
  match generateScenario (vmbTestTemplate d) (unlockingScriptIdForMode planItem.mode) with
  | GenerateScenarioResult.stringError e =>
    Except.error ("Error while generating \"" ++ description ++ "\" - " ++ e)
  | GenerateScenarioResult.scenarioStringError e =>
    Except.error ("Error while generating \"" ++ description ++ "\" - " ++ e)
  | GenerateScenarioResult.success tx outs inputIndex =>
    let encodedTx := C.encodeTransaction tx
    let encodedSourceOutputs := C.encodeTransactionOutputs outs
    let shortId :=
      (C.encodeBech32
          (C.regroupBits
            (C.sha256hash (flattenBinArray [encodedTx, encodedSourceOutputs])) 5 8)).take
        shortIdLength
    Except.ok
      { shortId := shortId,
        testDescription := description,
        unlockingScriptAsm := d.unlockingScript,
        redeemOrLockingScriptAsm := d.redeemOrLockingScript,
        testTransactionHex := C.binToHex encodedTx,
        sourceOutputsHex := C.binToHex encodedSourceOutputs,
        testSets := planItem.sets,
        inputIndex := if inputIndex = 0 then none else some inputIndex }

/-- `vmbTestDefinitionToVmbTests`: resolve the test plan from the override
labels and generate one master test vector per plan item.  When the joined
labels are not a key of the table, the source's non-null assertion makes the
subsequent `.map` crash with a `TypeError`; that failure is an `error` here. -/
def vmbTestDefinitionToVmbTests {S Tx Outs : Type} (C : Codec Tx Outs)
    (generateScenario : Template S → String → GenerateScenarioResult Tx Outs)
    (d : VmbTestDefinition S) (groupName : String) (shortIdLength : Nat) :
    Except String (List VmbTestMasterBCH) :=
  match planTestsBCH d.testSetOverrideLabels with
  | none => Except.error "TypeError: testGenerationPlan is undefined"
  | some testGenerationPlan =>
    mapThrow (vmbTestForPlanItem C generateScenario d groupName shortIdLength)
      testGenerationPlan

/-- `withoutSets`: drop the `testSets` element of a master vector, keeping the
optional trailing `inputIndex` exactly when present. -/
def stripTestSets (t : VmbTestMasterBCH) : VmbTest :=
  { shortId := t.shortId,
    testDescription := t.testDescription,
    unlockingScriptAsm := t.unlockingScriptAsm,
    redeemOrLockingScriptAsm := t.redeemOrLockingScriptAsm,
    testTransactionHex := t.testTransactionHex,
    sourceOutputsHex := t.sourceOutputsHex,
    inputIndex := t.inputIndex }

/-- `vmbTestPartitionMasterTestList`: reduce over the master list; for each
test case, append its `withoutSets` form to the accumulator entry of every id
in its `testSets`. -/
def vmbTestPartitionMasterTestList (masterTestList : List VmbTestMasterBCH) :
    List (String × List VmbTest) :=
  masterTestList.foldl
    (fun accumulatedTestSets testCase =>
      testCase.testSets.foldl
        (fun acc testSet => objUpsertAppend acc testSet (stripTestSets testCase))
        accumulatedTestSets)
    []

/-- The file path chosen by the generation script for a test set's JSON file:
under the `CHIPs` subdirectory when the set name contains `'chip'`. -/
def testSetFilePath (outputAbsolutePath testSetName : String) : String :=
  if containsSubstrB testSetName "chip" then
    outputAbsolutePath ++ "/CHIPs/bch_vmb_tests_" ++ testSetName ++ ".json"
  else outputAbsolutePath ++ "/bch_vmb_tests_" ++ testSetName ++ ".json"

/-- The generation script's file writes, as (path, contents) pairs in write
order: `vmbTestsBch.flat(2)` is serialized to `bch_vmb_tests.json`, then each
entry of the partitioned map to its test-set file.  `stringifyMaster` and
`stringifyTestSet` stand for the external `JSON.stringify`. -/
def vmbTestsFiles (outputAbsolutePath : String)
    (stringifyMaster : List VmbTestMasterBCH → String)
    (stringifyTestSet : List VmbTest → String)
    (vmbTestsBch : List (List (List VmbTestMasterBCH))) : List (String × String) :=
  let allTestCases := vmbTestsBch.flatten.flatten
  (outputAbsolutePath ++ "/bch_vmb_tests.json", stringifyMaster allTestCases) ::
    (vmbTestPartitionMasterTestList allTestCases).map
      (fun kv => (testSetFilePath outputAbsolutePath kv.1, stringifyTestSet kv.2))

/-- A trivial instantiation of the external codec, used to evaluate the
generator on concrete inputs. -/
def trivialCodec : Codec Unit Unit :=
  { encodeTransaction := fun _ => [0],
    encodeTransactionOutputs := fun _ => [1],
    sha256hash := fun b => b,
    regroupBits := fun b _ _ => b,
    encodeBech32 := fun _ => "qpzrylaq",
    binToHex := fun _ => "00" }

/-- A concrete external scenario generator always returning the same result. -/
def constGenerateScenario (r : GenerateScenarioResult Unit Unit) :
    Template Unit → String → GenerateScenarioResult Unit Unit :=
  fun _ _ => r

/-- A concrete external scenario generator that fails exactly on
`unlockP2sh32` and succeeds on every other unlocking-script id. -/
def genExceptP2sh32 : Template Unit → String → GenerateScenarioResult Unit Unit :=
  fun _ sid =>
    if sid = "unlockP2sh32" then GenerateScenarioResult.stringError "never"
    else GenerateScenarioResult.success () () 0

/-- A concrete test definition with no overrides. -/
def sampleDefinition : VmbTestDefinition Unit :=
  { unlockingScript := "<1>",
    redeemOrLockingScript := "OP_DROP OP_1",
    testDescription := "sample",
    testSetOverrideLabels := none,
    scenarioOverride := none,
    additionalScripts := none }

/-- A concrete test definition whose override labels join to a string that is
not a key of `supportedTestSetOverridesBCH`. -/
def sampleDefinitionUnsupported : VmbTestDefinition Unit :=
  { unlockingScript := "<1>",
    redeemOrLockingScript := "OP_DROP OP_1",
    testDescription := "sample",
    testSetOverrideLabels := some ["unsupported_label"],
    scenarioOverride := none,
    additionalScripts := none }

/-- A concrete master test vector with the given test sets and input index. -/
def sampleMaster (sets : List String) (idx : Option Nat) : VmbTestMasterBCH :=
  { shortId := "id",
    testDescription := "d",
    unlockingScriptAsm := "u",
    redeemOrLockingScriptAsm := "r",
    testTransactionHex := "aa",
    sourceOutputsHex := "bb",
    testSets := sets,
    inputIndex := idx }

/-- The first item of the default test plan (key `''` of the table). -/
def planNonP2shItem : TestPlanItem :=
  { mode := Mode.nonP2SH, sets := ["2021_nonstandard", "2022_nonstandard"] }

/-- The second item of the default test plan (key `''` of the table). -/
def planP2sh20Item : TestPlanItem :=
  { mode := Mode.P2SH20, sets := ["2021_standard", "2022_standard"] }

/-- The default test plan, used to evaluate concrete runs. -/
def samplePlan : TestPlan := [planNonP2shItem, planP2sh20Item]

/-- The vector generated for `sampleDefinition` (group `''`, length 5) on the
default plan's first item, under `trivialCodec` and an always-successful
generator with input index 0. -/
def sampleTestNonP2sh : VmbTestMasterBCH :=
  { shortId := "qpzry",
    testDescription := ": sample (nonP2SH)",
    unlockingScriptAsm := "<1>",
    redeemOrLockingScriptAsm := "OP_DROP OP_1",
    testTransactionHex := "00",
    sourceOutputsHex := "00",
    testSets := ["2021_nonstandard", "2022_nonstandard"],
    inputIndex := none }

/-- As `sampleTestNonP2sh`, for the default plan's second item. -/
def sampleTestP2sh20 : VmbTestMasterBCH :=
  { shortId := "qpzry",
    testDescription := ": sample (P2SH20)",
    unlockingScriptAsm := "<1>",
    redeemOrLockingScriptAsm := "OP_DROP OP_1",
    testTransactionHex := "00",
    sourceOutputsHex := "00",
    testSets := ["2021_standard", "2022_standard"],
    inputIndex := none }

/-- As `sampleTestNonP2sh`, with group name `'grp'`. -/
def sampleTestGrpNonP2sh : VmbTestMasterBCH :=
  { shortId := "qpzry",
    testDescription := "grp: sample (nonP2SH)",
    unlockingScriptAsm := "<1>",
    redeemOrLockingScriptAsm := "OP_DROP OP_1",
    testTransactionHex := "00",
    sourceOutputsHex := "00",
    testSets := ["2021_nonstandard", "2022_nonstandard"],
    inputIndex := none }

/-- As `sampleTestP2sh20`, with group name `'grp'`. -/
def sampleTestGrpP2sh20 : VmbTestMasterBCH :=
  { shortId := "qpzry",
    testDescription := "grp: sample (P2SH20)",
    unlockingScriptAsm := "<1>",
    redeemOrLockingScriptAsm := "OP_DROP OP_1",
    testTransactionHex := "00",
    sourceOutputsHex := "00",
    testSets := ["2021_standard", "2022_standard"],
    inputIndex := none }

/-- The master list generated for `sampleDefinition` with group `''`. -/
def sampleRunMaster : List VmbTestMasterBCH := [sampleTestNonP2sh, sampleTestP2sh20]

/-- The master list generated for `sampleDefinition` with group `'grp'`. -/
def sampleRunMasterGrp : List VmbTestMasterBCH :=
  [sampleTestGrpNonP2sh, sampleTestGrpP2sh20]

/-- The inner fold of the partitioner: append `v` to the entry of every set id
in `ss`. -/
def upsertAll {V : Type} (ss : List String) (acc : List (String × List V)) (v : V) :
    List (String × List V) :=
  ss.foldl (fun m s => objUpsertAppend m s v) acc

theorem objGet_objUpsertAppend {V : Type} (m : List (String × List V)) (k : String) (v : V)
    (key : String) :
    objGet (objUpsertAppend m k v) key =
      if key = k then some ((objGet m k).getD [] ++ [v]) else objGet m key := by
  induction m with
  | nil =>
    by_cases h : key = k
    · subst h; simp [objGet, objUpsertAppend]
    · simp [objGet, objUpsertAppend, h, Ne.symm h]
  | cons head rest ih =>
    obtain ⟨a, vs⟩ := head
    by_cases h1 : a = k
    · subst h1
      by_cases h2 : key = a
      · subst h2; simp [objGet, objUpsertAppend]
      · simp [objGet, objUpsertAppend, h2, Ne.symm h2]
    · by_cases h2 : key = k
      · subst h2
        have hak : a ≠ key := h1
        simp [objGet, objUpsertAppend, h1, hak, ih]
      · by_cases h3 : a = key
        · subst h3; simp [objGet, objUpsertAppend, h1, h2, ih]
        · simp [objGet, objUpsertAppend, h1, h2, h3, ih]

theorem objGet_upsertAll_notMem {V : Type} (ss : List String) (v : V) (S : String)
    (hS : S ∉ ss) :
    ∀ acc, objGet (upsertAll ss acc v) S = objGet acc S := by
  induction ss with
  | nil => intro acc; rfl
  | cons s rest ih =>
    intro acc
    have hs : S ≠ s := fun h => hS (h ▸ List.mem_cons_self s rest)
    have hrest : S ∉ rest := fun h => hS (List.mem_cons_of_mem s h)
    calc objGet (upsertAll (s :: rest) acc v) S
        = objGet (upsertAll rest (objUpsertAppend acc s v) v) S := rfl
      _ = objGet (objUpsertAppend acc s v) S := ih hrest (objUpsertAppend acc s v)
      _ = objGet acc S := by rw [objGet_objUpsertAppend]; simp [hs]

theorem objGet_upsertAll {V : Type} (ss : List String) (v : V) (S : String)
    (hnd : ss.Nodup) :
    ∀ acc, objGet (upsertAll ss acc v) S =
      if S ∈ ss then some ((objGet acc S).getD [] ++ [v]) else objGet acc S := by
  induction ss with
  | nil => intro acc; simp [upsertAll]
  | cons s rest ih =>
    intro acc
    obtain ⟨hnotmem, hndrest⟩ := List.nodup_cons.mp hnd
    have hstep : upsertAll (s :: rest) acc v = upsertAll rest (objUpsertAppend acc s v) v := rfl
    by_cases h : S = s
    · subst h
      rw [hstep, objGet_upsertAll_notMem rest v S hnotmem]
      rw [objGet_objUpsertAppend]
      simp
    · rw [hstep, ih hndrest]
      rw [objGet_objUpsertAppend]
      simp [h, List.mem_cons]

theorem objGet_mem {V : Type} (m : List (String × V)) (k : String) (v : V)
    (h : objGet m k = some v) : (k, v) ∈ m := by
  induction m with
  | nil => simp [objGet] at h
  | cons head rest ih =>
    obtain ⟨a, w⟩ := head
    by_cases ha : a = k
    · subst ha
      simp [objGet] at h
      simp [h]
    · simp [objGet, ha] at h
      exact List.mem_cons_of_mem _ (ih h)

theorem objGetLast_append_right {V : Type} (front rest : List (String × V)) (key : String)
    (w : V) (h : objGetLast rest key = some w) :
    objGetLast (front ++ rest) key = some w := by
  induction front with
  | nil => simpa using h
  | cons head tail ih =>
    obtain ⟨a, v⟩ := head
    simp only [List.cons_append, objGetLast, List.append_eq, ih]

theorem mapThrow_length {α β : Type} (f : α → Except String β) :
    ∀ (l : List α) (res : List β), mapThrow f l = Except.ok res → res.length = l.length := by
  intro l
  induction l with
  | nil =>
    intro res h
    simp [mapThrow] at h
    simp [← h]
  | cons a rest ih =>
    intro res h
    simp only [mapThrow] at h
    cases hfa : f a with
    | error e => rw [hfa] at h; exact absurd h (by simp)
    | ok b =>
      rw [hfa] at h
      cases hrec : mapThrow f rest with
      | error e => rw [hrec] at h; exact absurd h (by simp)
      | ok bs =>
        rw [hrec] at h
        simp at h
        simp [← h, ih bs hrec]

theorem mapThrow_get {α β : Type} (f : α → Except String β) :
    ∀ (l : List α) (res : List β), mapThrow f l = Except.ok res →
      ∀ (i : Nat) (a : α), l[i]? = some a → ∃ b, res[i]? = some b ∧ f a = Except.ok b := by
  intro l
  induction l with
  | nil => intro res _ i a ha; simp at ha
  | cons x rest ih =>
    intro res h i a ha
    simp only [mapThrow] at h
    cases hfa : f x with
    | error e => rw [hfa] at h; exact absurd h (by simp)
    | ok b =>
      rw [hfa] at h
      cases hrec : mapThrow f rest with
      | error e => rw [hrec] at h; exact absurd h (by simp)
      | ok bs =>
        rw [hrec] at h
        simp at h
        cases i with
        | zero =>
          simp at ha
          exact ⟨b, by simp [← h], by rw [← ha]; exact hfa⟩
        | succ j =>
          simp at ha
          obtain ⟨b2, hb2, hfb2⟩ := ih bs hrec j a ha
          exact ⟨b2, by simp [← h, hb2], hfb2⟩

theorem mapThrow_total {α β : Type} (f : α → Except String β) :
    ∀ (l : List α), (∀ a ∈ l, ∃ b, f a = Except.ok b) →
      ∃ res, mapThrow f l = Except.ok res := by
  intro l
  induction l with
  | nil => intro _; exact ⟨[], rfl⟩
  | cons x rest ih =>
    intro h
    obtain ⟨b, hb⟩ := h x (List.mem_cons_self x rest)
    obtain ⟨bs, hbs⟩ := ih (fun a ha => h a (List.mem_cons_of_mem x ha))
    exact ⟨b :: bs, by simp only [mapThrow, hb, hbs]⟩

theorem mapThrow_congr {α β : Type} (f g : α → Except String β) :
    ∀ (l : List α), (∀ a ∈ l, f a = g a) → mapThrow f l = mapThrow g l := by
  intro l
  induction l with
  | nil => intro _; rfl
  | cons x rest ih =>
    intro h
    simp only [mapThrow, h x (List.mem_cons_self x rest),
      ih (fun a ha => h a (List.mem_cons_of_mem x ha))]

theorem vmbTestForPlanItem_of_success {S Tx Outs : Type} (C : Codec Tx Outs)
    (generateScenario : Template S → String → GenerateScenarioResult Tx Outs)
    (d : VmbTestDefinition S) (groupName : String) (shortIdLength : Nat)
    (planItem : TestPlanItem) (tx : Tx) (outs : Outs) (idx : Nat)
    (hgen : generateScenario (vmbTestTemplate d) (unlockingScriptIdForMode planItem.mode) =
      GenerateScenarioResult.success tx outs idx) :
    vmbTestForPlanItem C generateScenario d groupName shortIdLength planItem =
      Except.ok
        { shortId :=
            (C.encodeBech32
                (C.regroupBits
                  (C.sha256hash
                    (flattenBinArray
                      [C.encodeTransaction tx, C.encodeTransactionOutputs outs])) 5 8)).take
              shortIdLength,
          testDescription :=
            groupName ++ ": " ++ d.testDescription ++ " (" ++ modeName planItem.mode ++ ")",
          unlockingScriptAsm := d.unlockingScript,
          redeemOrLockingScriptAsm := d.redeemOrLockingScript,
          testTransactionHex := C.binToHex (C.encodeTransaction tx),
          sourceOutputsHex := C.binToHex (C.encodeTransactionOutputs outs),
          testSets := planItem.sets,
          inputIndex := if idx = 0 then none else some idx } := by
  simp only [vmbTestForPlanItem, hgen]

theorem vmbTestForPlanItem_ok_inv {S Tx Outs : Type} (C : Codec Tx Outs)
    (generateScenario : Template S → String → GenerateScenarioResult Tx Outs)
    (d : VmbTestDefinition S) (groupName : String) (shortIdLength : Nat)
    (planItem : TestPlanItem) (t : VmbTestMasterBCH)
    (h : vmbTestForPlanItem C generateScenario d groupName shortIdLength planItem =
      Except.ok t) :
    ∃ tx outs idx,
      generateScenario (vmbTestTemplate d) (unlockingScriptIdForMode planItem.mode) =
        GenerateScenarioResult.success tx outs idx ∧
      vmbTestForPlanItem C generateScenario d groupName shortIdLength planItem =
        Except.ok t := by
  cases hgen : generateScenario (vmbTestTemplate d) (unlockingScriptIdForMode planItem.mode) with
  | stringError e =>
    simp only [vmbTestForPlanItem, hgen] at h
    exact absurd h (by simp)
  | scenarioStringError e =>
    simp only [vmbTestForPlanItem, hgen] at h
    exact absurd h (by simp)
  | success tx outs idx => exact ⟨tx, outs, idx, rfl, h⟩

theorem description_infix (a b c : String) :
    ("(" ++ c ++ ")").data <:+: (a ++ ": " ++ b ++ " (" ++ c ++ ")").data := by
  refine ⟨(a ++ ": " ++ b ++ " ").data, [], ?_⟩
  have hsp : (" (" : String).data = (" " : String).data ++ ("(" : String).data := rfl
  simp [String.data_append, hsp]

theorem vmbTestPartition_eq_foldl (L : List VmbTestMasterBCH) :
    vmbTestPartitionMasterTestList L =
      L.foldl (fun m t => upsertAll t.testSets m (stripTestSets t)) [] := rfl

theorem objGet_partition_foldl (S : String) :
    ∀ (L : List VmbTestMasterBCH) (acc : List (String × List VmbTest)),
      (∀ t ∈ L, t.testSets.Nodup) →
      objGet (L.foldl (fun m t => upsertAll t.testSets m (stripTestSets t)) acc) S =
        if objGet acc S = none ∧
            (L.filter (fun t => decide (S ∈ t.testSets))).map stripTestSets = []
        then none
        else some ((objGet acc S).getD [] ++
          (L.filter (fun t => decide (S ∈ t.testSets))).map stripTestSets) := by
  intro L
  induction L with
  | nil =>
    intro acc _
    cases hacc : objGet acc S <;> simp [hacc]
  | cons t L ih =>
    intro acc hnd
    have h1 := hnd t (List.mem_cons_self t L)
    have hrest : ∀ x ∈ L, x.testSets.Nodup := fun x hx => hnd x (List.mem_cons_of_mem t hx)
    rw [List.foldl_cons, ih (upsertAll t.testSets acc (stripTestSets t)) hrest,
      objGet_upsertAll t.testSets (stripTestSets t) S h1 acc]
    by_cases hmem : S ∈ t.testSets
    · simp only [hmem, if_true, List.filter_cons, decide_eq_true_eq, if_pos hmem,
        decide_True, List.map_cons]
      cases hacc : objGet acc S <;>
        simp [List.append_assoc]
    · simp only [hmem, if_false, List.filter_cons, decide_eq_true_eq, if_neg hmem]

theorem objUpsertAppend_values {V : Type} {Q : V → Prop} (k : String) (v : V) (hv : Q v) :
    ∀ (m : List (String × List V)), (∀ kv ∈ m, ∀ x ∈ kv.2, Q x) →
      ∀ kv ∈ objUpsertAppend m k v, ∀ x ∈ kv.2, Q x := by
  intro m
  induction m with
  | nil =>
    intro _ kv hkv x hx
    simp [objUpsertAppend] at hkv
    subst hkv
    simp at hx
    subst hx
    exact hv
  | cons head rest ih =>
    intro hm kv hkv x hx
    obtain ⟨a, vs⟩ := head
    by_cases ha : a = k
    · simp only [objUpsertAppend, ha, if_true] at hkv
      rcases List.mem_cons.mp hkv with hkv | hkv
      · subst hkv
        rcases List.mem_append.mp hx with hx | hx
        · exact hm (a, vs) (ha ▸ List.mem_cons_self _ _) x hx
        · simp at hx
          subst hx
          exact hv
      · exact hm kv (List.mem_cons_of_mem _ hkv) x hx
    · simp only [objUpsertAppend, ha, if_false] at hkv
      rcases List.mem_cons.mp hkv with hkv | hkv
      · subst hkv
        exact hm (a, vs) (List.mem_cons_self _ _) x hx
      · exact ih (fun kv2 hkv2 => hm kv2 (List.mem_cons_of_mem _ hkv2)) kv hkv x hx

theorem upsertAll_values {V : Type} {Q : V → Prop} (v : V) (hv : Q v) :
    ∀ (ss : List String) (acc : List (String × List V)),
      (∀ kv ∈ acc, ∀ x ∈ kv.2, Q x) → ∀ kv ∈ upsertAll ss acc v, ∀ x ∈ kv.2, Q x := by
  intro ss
  induction ss with
  | nil => intro acc hacc; exact hacc
  | cons s rest ih =>
    intro acc hacc
    exact ih (objUpsertAppend acc s v) (objUpsertAppend_values s v hv acc hacc)

theorem partition_foldl_values {Q : VmbTest → Prop} :
    ∀ (L : List VmbTestMasterBCH) (acc : List (String × List VmbTest)),
      (∀ t ∈ L, Q (stripTestSets t)) → (∀ kv ∈ acc, ∀ x ∈ kv.2, Q x) →
      ∀ kv ∈ L.foldl (fun m t => upsertAll t.testSets m (stripTestSets t)) acc,
        ∀ x ∈ kv.2, Q x := by
  intro L
  induction L with
  | nil => intro acc _ hacc; exact hacc
  | cons t L ih =>
    intro acc hL hacc
    exact ih (upsertAll t.testSets acc (stripTestSets t))
      (fun x hx => hL x (List.mem_cons_of_mem t hx))
      (upsertAll_values (stripTestSets t) (hL t (List.mem_cons_self t L)) t.testSets acc hacc)

theorem partition_values {L : List VmbTestMasterBCH} {S : String} {vs : List VmbTest}
    (h : (S, vs) ∈ vmbTestPartitionMasterTestList L) :
    ∀ v ∈ vs, ∃ m ∈ L, v = stripTestSets m := by
  intro v hv
  exact @partition_foldl_values (fun v => ∃ m ∈ L, v = stripTestSets m) L []
    (fun t ht => ⟨t, ht, rfl⟩) (by simp) (S, vs) h v hv

theorem objUpsertAppend_nonempty {V : Type} (k : String) (v : V) :
    ∀ (m : List (String × List V)), (∀ kv ∈ m, kv.2 ≠ []) →
      ∀ kv ∈ objUpsertAppend m k v, kv.2 ≠ [] := by
  intro m
  induction m with
  | nil =>
    intro _ kv hkv
    simp [objUpsertAppend] at hkv
    subst hkv
    simp
  | cons head rest ih =>
    intro hm kv hkv
    obtain ⟨a, vs⟩ := head
    by_cases ha : a = k
    · simp only [objUpsertAppend, ha, if_true] at hkv
      rcases List.mem_cons.mp hkv with hkv | hkv
      · subst hkv; simp
      · exact hm kv (List.mem_cons_of_mem _ hkv)
    · simp only [objUpsertAppend, ha, if_false] at hkv
      rcases List.mem_cons.mp hkv with hkv | hkv
      · subst hkv
        exact hm (a, vs) (List.mem_cons_self _ _)
      · exact ih (fun kv2 hkv2 => hm kv2 (List.mem_cons_of_mem _ hkv2)) kv hkv

theorem upsertAll_nonempty {V : Type} (v : V) :
    ∀ (ss : List String) (acc : List (String × List V)),
      (∀ kv ∈ acc, kv.2 ≠ []) → ∀ kv ∈ upsertAll ss acc v, kv.2 ≠ [] := by
  intro ss
  induction ss with
  | nil => intro acc hacc; exact hacc
  | cons s rest ih =>
    intro acc hacc
    exact ih (objUpsertAppend acc s v) (objUpsertAppend_nonempty s v acc hacc)

theorem partition_nonempty (L : List VmbTestMasterBCH) :
    ∀ kv ∈ vmbTestPartitionMasterTestList L, kv.2 ≠ [] := by
  rw [vmbTestPartition_eq_foldl]
  have haux : ∀ (M : List VmbTestMasterBCH) (acc : List (String × List VmbTest)),
      (∀ kv ∈ acc, kv.2 ≠ []) →
      ∀ kv ∈ M.foldl (fun m t => upsertAll t.testSets m (stripTestSets t)) acc, kv.2 ≠ [] := by
    intro M
    induction M with
    | nil => intro acc hacc; exact hacc
    | cons t M ih =>
      intro acc hacc
      exact ih (upsertAll t.testSets acc (stripTestSets t))
        (upsertAll_nonempty (stripTestSets t) t.testSets acc hacc)
  exact haux L [] (by simp)

theorem flattenBinArray_pair (a b : List Nat) : flattenBinArray [a, b] = a ++ b := by
  simp [flattenBinArray]

theorem supportedTable_no_p2sh32 :
    ∀ kv ∈ supportedTestSetOverridesBCH, ∀ item ∈ kv.2, item.mode ≠ Mode.P2SH32 := by
  decide

/-- C4: `planTestsBCH` is a pure lookup in the static table
`supportedTestSetOverridesBCH` keyed by the comma-join of the given label list
(`[]` when no labels are given), and with no labels it returns the default
plan `[{nonP2SH, ['2021_nonstandard','2022_nonstandard']},
{P2SH20, ['2021_standard','2022_standard']}]`. -/
theorem planTestsBCH_table_lookup :
    (∀ labels : Option (List String),
      planTestsBCH labels =
        objGet supportedTestSetOverridesBCH (String.intercalate "," (labels.getD []))) ∧
    planTestsBCH none =
      some [{ mode := Mode.nonP2SH, sets := ["2021_nonstandard", "2022_nonstandard"] },
            { mode := Mode.P2SH20, sets := ["2021_standard", "2022_standard"] }] := by
  exact ⟨fun labels => rfl, by decide⟩

/-- C8: when the comma-join of the override labels is not a key of
`supportedTestSetOverridesBCH`, `planTestsBCH` returns `none` (the `undefined`
hidden by the source's non-null assertion), and `vmbTestDefinitionToVmbTests`
invoked with such labels fails with an error rather than producing test
vectors; the resolver only succeeds on label lists whose joins are table
keys. -/
theorem planTestsBCH_unsupported_fails :
    ∀ labels : List String,
      objGet supportedTestSetOverridesBCH (String.intercalate "," labels) = none →
      planTestsBCH (some labels) = none ∧
      ∀ (S Tx Outs : Type) (C : Codec Tx Outs)
        (gen : Template S → String → GenerateScenarioResult Tx Outs)
        (d : VmbTestDefinition S) (groupName : String) (shortIdLength : Nat),
        d.testSetOverrideLabels = some labels →
        ∃ e, vmbTestDefinitionToVmbTests C gen d groupName shortIdLength =
          Except.error e := by
  intro labels h
  have hp : planTestsBCH (some labels) = none := h
  refine ⟨hp, ?_⟩
  intro S Tx Outs C gen d groupName shortIdLength hd
  refine ⟨"TypeError: testGenerationPlan is undefined", ?_⟩
  simp only [vmbTestDefinitionToVmbTests, hd, hp]

theorem planTestsBCH_unsupported_fails_witness :
    objGet supportedTestSetOverridesBCH (String.intercalate "," ["unsupported_label"]) =
      none ∧
    planTestsBCH (some ["unsupported_label"]) = none ∧
    ∃ e, vmbTestDefinitionToVmbTests trivialCodec
      (constGenerateScenario (GenerateScenarioResult.success () () 0))
      sampleDefinitionUnsupported "" 5 = Except.error e :=
  ⟨by decide,
   (planTestsBCH_unsupported_fails ["unsupported_label"] (by decide)).1,
   (planTestsBCH_unsupported_fails ["unsupported_label"] (by decide)).2 Unit Unit Unit
     trivialCodec (constGenerateScenario (GenerateScenarioResult.success () () 0))
     sampleDefinitionUnsupported "" 5 rfl⟩

/-- C10: every plan in `supportedTestSetOverridesBCH` uses only the modes
`nonP2SH` and `P2SH20`, never `P2SH32`, so the unlocking-script id of every
resolved plan item differs from `'unlockP2sh32'`; consequently the generator's
result does not depend on the scenario generator's behaviour at
`'unlockP2sh32'` (that id is never passed to `generateScenario`). -/
theorem no_p2sh32_in_plans :
    (∀ kv ∈ supportedTestSetOverridesBCH, ∀ item ∈ kv.2,
      item.mode ≠ Mode.P2SH32 ∧ unlockingScriptIdForMode item.mode ≠ "unlockP2sh32") ∧
    (∀ (S Tx Outs : Type) (C : Codec Tx Outs)
      (gen gen2 : Template S → String → GenerateScenarioResult Tx Outs)
      (d : VmbTestDefinition S) (groupName : String) (shortIdLength : Nat),
      (∀ (tmpl : Template S) (sid : String), sid ≠ "unlockP2sh32" →
        gen tmpl sid = gen2 tmpl sid) →
      vmbTestDefinitionToVmbTests C gen d groupName shortIdLength =
        vmbTestDefinitionToVmbTests C gen2 d groupName shortIdLength) := by
  constructor
  · decide
  · intro S Tx Outs C gen gen2 d groupName shortIdLength hagree
    cases hplan : planTestsBCH d.testSetOverrideLabels with
    | none => simp only [vmbTestDefinitionToVmbTests, hplan]
    | some plan =>
      simp only [vmbTestDefinitionToVmbTests, hplan]
      apply mapThrow_congr
      intro item hitem
      have hplan2 : objGet supportedTestSetOverridesBCH
          (String.intercalate "," (d.testSetOverrideLabels.getD [])) = some plan := hplan
      have hmemtable := objGet_mem supportedTestSetOverridesBCH _ plan hplan2
      have hmode : item.mode ≠ Mode.P2SH32 :=
        supportedTable_no_p2sh32 _ hmemtable item hitem
      have hid : unlockingScriptIdForMode item.mode ≠ "unlockP2sh32" := by
        cases hm : item.mode with
        | nonP2SH => simp [unlockingScriptIdForMode]
        | P2SH20 => simp [unlockingScriptIdForMode]
        | P2SH32 => exact absurd hm hmode
      simp only [vmbTestForPlanItem,
        hagree (vmbTestTemplate d) (unlockingScriptIdForMode item.mode) hid]

theorem no_p2sh32_in_plans_witness :
    ({ mode := Mode.nonP2SH, sets := ["2021_nonstandard", "2022_nonstandard"] } :
        TestPlanItem).mode ≠ Mode.P2SH32 ∧
    unlockingScriptIdForMode Mode.nonP2SH ≠ "unlockP2sh32" ∧
    vmbTestDefinitionToVmbTests trivialCodec
        (constGenerateScenario (GenerateScenarioResult.success () () 0))
        sampleDefinition "" 5 =
      vmbTestDefinitionToVmbTests trivialCodec genExceptP2sh32 sampleDefinition "" 5 :=
  ⟨(no_p2sh32_in_plans.1
      ("", [{ mode := Mode.nonP2SH, sets := ["2021_nonstandard", "2022_nonstandard"] },
            { mode := Mode.P2SH20, sets := ["2021_standard", "2022_standard"] }])
      (by decide)
      { mode := Mode.nonP2SH, sets := ["2021_nonstandard", "2022_nonstandard"] }
      (by decide)).1,
   (no_p2sh32_in_plans.1
      ("", [{ mode := Mode.nonP2SH, sets := ["2021_nonstandard", "2022_nonstandard"] },
            { mode := Mode.P2SH20, sets := ["2021_standard", "2022_standard"] }])
      (by decide)
      { mode := Mode.nonP2SH, sets := ["2021_nonstandard", "2022_nonstandard"] }
      (by decide)).2,
   no_p2sh32_in_plans.2 Unit Unit Unit trivialCodec
     (constGenerateScenario (GenerateScenarioResult.success () () 0)) genExceptP2sh32
     sampleDefinition "" 5
     (fun tmpl sid hsid => by
       simp [constGenerateScenario, genExceptP2sh32, hsid])⟩

/-- C7: for every test definition, the template's `scripts` object contains the
nine built-in entries with their source values — `lockP2sh20`/`lockStandard`
hold the definition's `redeemOrLockingScript` and
`unlockP2sh20`/`unlockStandard` its `unlockingScript` — and because the object
literal writes the built-ins after spreading `additionalScripts`, an
additional script reusing a built-in name does not replace the built-in
value. -/
theorem template_builtin_scripts {S : Type} (d : VmbTestDefinition S) :
    objGetLast (vmbTestTemplate d).scripts "lockEmptyP2sh20" =
      some ⟨some "p2sh20", "", none⟩ ∧
    objGetLast (vmbTestTemplate d).scripts "lockP2pkh" =
      some ⟨some "standard",
        "OP_DUP OP_HASH160 <$(<key1.public_key> OP_HASH160)> OP_EQUALVERIFY OP_CHECKSIG",
        none⟩ ∧
    objGetLast (vmbTestTemplate d).scripts "lockP2sh20" =
      some ⟨some "p2sh20", d.redeemOrLockingScript, none⟩ ∧
    objGetLast (vmbTestTemplate d).scripts "lockStandard" =
      some ⟨some "standard", d.redeemOrLockingScript, none⟩ ∧
    objGetLast (vmbTestTemplate d).scripts "unlockEmptyP2sh20" =
      some ⟨none, "<1>", some "lockEmptyP2sh20"⟩ ∧
    objGetLast (vmbTestTemplate d).scripts "unlockP2pkh" =
      some ⟨none,
        "<key1.schnorr_signature.corresponding_output_single_input> <key1.public_key>",
        some "lockP2pkh"⟩ ∧
    objGetLast (vmbTestTemplate d).scripts "unlockP2sh20" =
      some ⟨none, d.unlockingScript, some "lockP2sh20"⟩ ∧
    objGetLast (vmbTestTemplate d).scripts "unlockStandard" =
      some ⟨none, d.unlockingScript, some "lockStandard"⟩ ∧
    objGetLast (vmbTestTemplate d).scripts "vmbTestNullData" =
      some ⟨some "standard", "OP_RETURN <\"vmb_test\">", none⟩ := by
  simp only [vmbTestTemplate]
  exact ⟨objGetLast_append_right _ _ _ _ rfl, objGetLast_append_right _ _ _ _ rfl,
    objGetLast_append_right _ _ _ _ rfl, objGetLast_append_right _ _ _ _ rfl,
    objGetLast_append_right _ _ _ _ rfl, objGetLast_append_right _ _ _ _ rfl,
    objGetLast_append_right _ _ _ _ rfl, objGetLast_append_right _ _ _ _ rfl,
    objGetLast_append_right _ _ _ _ rfl⟩

/-- C2 (amended): for every master test list in which no entry's `testSets`
contains a duplicate set id, `vmbTestPartitionMasterTestList` maps each
test-set id `S` to exactly the list of master entries whose `testSets`
contains `S`, stripped of `testSets` (all other fields unchanged, by
`stripTestSets`), in master-list order; a set id occurring in no entry's
`testSets` is absent.  (Without the no-duplicate restriction an entry is
appended once per occurrence of `S` in its `testSets`.) -/
theorem partition_lookup_eq_filter (L : List VmbTestMasterBCH) (S : String)
    (h : ∀ t ∈ L, t.testSets.Nodup) :
    objGet (vmbTestPartitionMasterTestList L) S =
      if (L.filter (fun t => decide (S ∈ t.testSets))).map stripTestSets = []
      then none
      else some ((L.filter (fun t => decide (S ∈ t.testSets))).map stripTestSets) := by
  rw [vmbTestPartition_eq_foldl, objGet_partition_foldl S L [] h]
  simp [objGet]

/-- C2 counterexample: with a master entry whose `testSets` lists the same set
id twice, the partitioned list for that id contains the stripped entry twice,
not "exactly the list of master entries whose testSets contains S". -/
theorem partition_duplicate_sets_counterexample :
    objGet
        (vmbTestPartitionMasterTestList
          [sampleMaster ["2021_invalid", "2021_invalid"] none]) "2021_invalid" ≠
      some (([sampleMaster ["2021_invalid", "2021_invalid"] none].filter
        (fun t => decide ("2021_invalid" ∈ t.testSets))).map stripTestSets) := by
  decide

theorem partition_lookup_eq_filter_witness :
    (∀ t ∈ [sampleMaster ["set_a", "set_b"] none, sampleMaster ["set_b"] (some 1)],
      t.testSets.Nodup) ∧
    objGet
        (vmbTestPartitionMasterTestList
          [sampleMaster ["set_a", "set_b"] none, sampleMaster ["set_b"] (some 1)])
        "set_b" =
      if (([sampleMaster ["set_a", "set_b"] none,
            sampleMaster ["set_b"] (some 1)].filter
        (fun t => decide ("set_b" ∈ t.testSets))).map stripTestSets) = []
      then none
      else some (([sampleMaster ["set_a", "set_b"] none,
            sampleMaster ["set_b"] (some 1)].filter
        (fun t => decide ("set_b" ∈ t.testSets))).map stripTestSets) :=
  ⟨by decide,
   partition_lookup_eq_filter
     [sampleMaster ["set_a", "set_b"] none, sampleMaster ["set_b"] (some 1)] "set_b"
     (by decide)⟩

theorem generated_test_eq {S Tx Outs : Type} (C : Codec Tx Outs)
    (gen : Template S → String → GenerateScenarioResult Tx Outs)
    (d : VmbTestDefinition S) (groupName : String) (shortIdLength : Nat)
    (plan : TestPlan) (res : List VmbTestMasterBCH) (i : Nat) (item : TestPlanItem)
    (t : VmbTestMasterBCH)
    (hplan : planTestsBCH d.testSetOverrideLabels = some plan)
    (hres : vmbTestDefinitionToVmbTests C gen d groupName shortIdLength = Except.ok res)
    (hi : plan[i]? = some item) (ht : res[i]? = some t) :
    ∃ tx outs idx,
      gen (vmbTestTemplate d) (unlockingScriptIdForMode item.mode) =
        GenerateScenarioResult.success tx outs idx ∧
      t = { shortId :=
              (C.encodeBech32
                  (C.regroupBits
                    (C.sha256hash
                      (C.encodeTransaction tx ++ C.encodeTransactionOutputs outs)) 5 8)).take
                shortIdLength,
            testDescription :=
              groupName ++ ": " ++ d.testDescription ++ " (" ++ modeName item.mode ++ ")",
            unlockingScriptAsm := d.unlockingScript,
            redeemOrLockingScriptAsm := d.redeemOrLockingScript,
            testTransactionHex := C.binToHex (C.encodeTransaction tx),
            sourceOutputsHex := C.binToHex (C.encodeTransactionOutputs outs),
            testSets := item.sets,
            inputIndex := if idx = 0 then none else some idx } := by
  simp only [vmbTestDefinitionToVmbTests, hplan] at hres
  obtain ⟨b, hb, hfb⟩ := mapThrow_get _ plan res hres i item hi
  obtain ⟨tx, outs, idx, hgen, hok⟩ :=
    vmbTestForPlanItem_ok_inv C gen d groupName shortIdLength item b hfb
  rw [vmbTestForPlanItem_of_success C gen d groupName shortIdLength item tx outs idx hgen]
    at hok
  refine ⟨tx, outs, idx, hgen, ?_⟩
  rw [ht] at hb
  rw [Option.some.inj hb, ← Except.ok.inj hok]
  simp [flattenBinArray_pair]

/-- C1: when the override labels resolve to a plan and every
`generateScenario` call succeeds, `vmbTestDefinitionToVmbTests` returns
exactly one test vector per plan item, in plan order; the vector for plan item
`i` has `testSets` equal to that item's `sets` and a description containing
the item's mode in parentheses. -/
theorem vmbTests_one_per_plan_item {S Tx Outs : Type} (C : Codec Tx Outs)
    (gen : Template S → String → GenerateScenarioResult Tx Outs)
    (d : VmbTestDefinition S) (groupName : String) (shortIdLength : Nat) (plan : TestPlan)
    (hplan : planTestsBCH d.testSetOverrideLabels = some plan)
    (hgen : ∀ item ∈ plan, ∃ tx outs idx,
      gen (vmbTestTemplate d) (unlockingScriptIdForMode item.mode) =
        GenerateScenarioResult.success tx outs idx) :
    ∃ results,
      vmbTestDefinitionToVmbTests C gen d groupName shortIdLength = Except.ok results ∧
      results.length = plan.length ∧
      ∀ (i : Nat) (item : TestPlanItem), plan[i]? = some item →
        ∃ t, results[i]? = some t ∧ t.testSets = item.sets ∧
          ("(" ++ modeName item.mode ++ ")").data <:+: t.testDescription.data := by
  have hsucc : ∀ item ∈ plan, ∃ b,
      vmbTestForPlanItem C gen d groupName shortIdLength item = Except.ok b := by
    intro item hitem
    obtain ⟨tx, outs, idx, hg⟩ := hgen item hitem
    exact ⟨_, vmbTestForPlanItem_of_success C gen d groupName shortIdLength item
      tx outs idx hg⟩
  obtain ⟨results, hres0⟩ := mapThrow_total _ plan hsucc
  have hres : vmbTestDefinitionToVmbTests C gen d groupName shortIdLength =
      Except.ok results := by
    simp only [vmbTestDefinitionToVmbTests, hplan]
    exact hres0
  refine ⟨results, hres, mapThrow_length _ plan results hres0, ?_⟩
  intro i item hi
  obtain ⟨t, ht, _⟩ := mapThrow_get _ plan results hres0 i item hi
  obtain ⟨tx, outs, idx, hg, hteq⟩ :=
    generated_test_eq C gen d groupName shortIdLength plan results i item t hplan hres hi ht
  refine ⟨t, ht, ?_, ?_⟩
  · rw [hteq]
  · rw [hteq]
    exact description_infix groupName d.testDescription (modeName item.mode)

theorem vmbTests_one_per_plan_item_witness :
    ∃ results,
      vmbTestDefinitionToVmbTests trivialCodec
          (constGenerateScenario (GenerateScenarioResult.success () () 0))
          sampleDefinition "grp" 5 = Except.ok results ∧
      results.length = samplePlan.length ∧
      ∀ (i : Nat) (item : TestPlanItem), samplePlan[i]? = some item →
        ∃ t, results[i]? = some t ∧ t.testSets = item.sets ∧
          ("(" ++ modeName item.mode ++ ")").data <:+: t.testDescription.data :=
  vmbTests_one_per_plan_item trivialCodec
    (constGenerateScenario (GenerateScenarioResult.success () () 0))
    sampleDefinition "grp" 5 samplePlan (by decide)
    (fun item _ => ⟨(), (), 0, rfl⟩)

/-- C3: every generated vector's `shortId` is the first `shortIdLength`
characters (and `defaultShortIdLength = 5`) of the bech32 encoding of the
5-bit regrouping of the SHA-256 hash of the encoded test transaction
concatenated with the encoded source outputs. -/
theorem shortId_from_hash {S Tx Outs : Type} (C : Codec Tx Outs)
    (gen : Template S → String → GenerateScenarioResult Tx Outs)
    (d : VmbTestDefinition S) (groupName : String) (shortIdLength : Nat)
    (plan : TestPlan) (results : List VmbTestMasterBCH) (i : Nat) (item : TestPlanItem)
    (t : VmbTestMasterBCH) (tx : Tx) (outs : Outs) (idx : Nat)
    (hplan : planTestsBCH d.testSetOverrideLabels = some plan)
    (hres : vmbTestDefinitionToVmbTests C gen d groupName shortIdLength = Except.ok results)
    (hi : plan[i]? = some item) (ht : results[i]? = some t)
    (hg : gen (vmbTestTemplate d) (unlockingScriptIdForMode item.mode) =
      GenerateScenarioResult.success tx outs idx) :
    t.shortId =
      (C.encodeBech32
          (C.regroupBits
            (C.sha256hash (C.encodeTransaction tx ++ C.encodeTransactionOutputs outs))
            5 8)).take shortIdLength ∧
    defaultShortIdLength = 5 := by
  refine ⟨?_, rfl⟩
  obtain ⟨tx2, outs2, idx2, hg2, hteq⟩ :=
    generated_test_eq C gen d groupName shortIdLength plan results i item t hplan hres hi ht
  rw [hg] at hg2
  injection hg2 with h1 h2 h3
  subst h1
  subst h2
  rw [hteq]

theorem shortId_from_hash_witness :
    sampleTestNonP2sh.shortId =
      (trivialCodec.encodeBech32
          (trivialCodec.regroupBits
            (trivialCodec.sha256hash
              (trivialCodec.encodeTransaction () ++ trivialCodec.encodeTransactionOutputs ()))
            5 8)).take 5 ∧
    defaultShortIdLength = 5 :=
  shortId_from_hash trivialCodec
    (constGenerateScenario (GenerateScenarioResult.success () () 0))
    sampleDefinition "" 5 samplePlan sampleRunMaster 0 planNonP2shItem
    sampleTestNonP2sh () () 0 (by decide) (by rfl) (by decide) (by decide) rfl

/-- C6: the short identifier depends only on the encoded transaction and the
encoded source outputs: with the same hashing/regrouping/bech32 functions and
the same `shortIdLength`, two generated vectors whose encoded transactions and
encoded source outputs are byte-for-byte equal have equal `shortId`s,
regardless of description, group name, scripts, or test-set plan. -/
theorem shortId_deterministic {S1 Tx1 Outs1 S2 Tx2 Outs2 : Type}
    (cA : Codec Tx1 Outs1) (cB : Codec Tx2 Outs2)
    (gen1 : Template S1 → String → GenerateScenarioResult Tx1 Outs1)
    (gen2 : Template S2 → String → GenerateScenarioResult Tx2 Outs2)
    (d1 : VmbTestDefinition S1) (d2 : VmbTestDefinition S2)
    (g1 g2 : String) (shortIdLength : Nat)
    (plan1 plan2 : TestPlan) (res1 res2 : List VmbTestMasterBCH)
    (i1 i2 : Nat) (item1 item2 : TestPlanItem) (t1 t2 : VmbTestMasterBCH)
    (tx1 : Tx1) (outs1 : Outs1) (idx1 : Nat) (tx2 : Tx2) (outs2 : Outs2) (idx2 : Nat)
    (hhash : cA.sha256hash = cB.sha256hash)
    (hregroup : cA.regroupBits = cB.regroupBits)
    (hbech : cA.encodeBech32 = cB.encodeBech32)
    (hplan1 : planTestsBCH d1.testSetOverrideLabels = some plan1)
    (hres1 : vmbTestDefinitionToVmbTests cA gen1 d1 g1 shortIdLength = Except.ok res1)
    (hi1 : plan1[i1]? = some item1) (ht1 : res1[i1]? = some t1)
    (hg1 : gen1 (vmbTestTemplate d1) (unlockingScriptIdForMode item1.mode) =
      GenerateScenarioResult.success tx1 outs1 idx1)
    (hplan2 : planTestsBCH d2.testSetOverrideLabels = some plan2)
    (hres2 : vmbTestDefinitionToVmbTests cB gen2 d2 g2 shortIdLength = Except.ok res2)
    (hi2 : plan2[i2]? = some item2) (ht2 : res2[i2]? = some t2)
    (hg2 : gen2 (vmbTestTemplate d2) (unlockingScriptIdForMode item2.mode) =
      GenerateScenarioResult.success tx2 outs2 idx2)
    (htxeq : cA.encodeTransaction tx1 = cB.encodeTransaction tx2)
    (houtseq : cA.encodeTransactionOutputs outs1 = cB.encodeTransactionOutputs outs2) :
    t1.shortId = t2.shortId := by
  obtain ⟨tx1b, outs1b, idx1b, hgb1, hteq1⟩ :=
    generated_test_eq cA gen1 d1 g1 shortIdLength plan1 res1 i1 item1 t1 hplan1 hres1 hi1 ht1
  rw [hg1] at hgb1
  injection hgb1 with a1 b1 c1
  subst a1
  subst b1
  obtain ⟨tx2b, outs2b, idx2b, hgb2, hteq2⟩ :=
    generated_test_eq cB gen2 d2 g2 shortIdLength plan2 res2 i2 item2 t2 hplan2 hres2 hi2 ht2
  rw [hg2] at hgb2
  injection hgb2 with a2 b2 c2
  subst a2
  subst b2
  have e1 : t1.shortId =
      (cA.encodeBech32
          (cA.regroupBits
            (cA.sha256hash (cA.encodeTransaction tx1 ++ cA.encodeTransactionOutputs outs1))
            5 8)).take shortIdLength := by
    rw [hteq1]
  have e2 : t2.shortId =
      (cB.encodeBech32
          (cB.regroupBits
            (cB.sha256hash (cB.encodeTransaction tx2 ++ cB.encodeTransactionOutputs outs2))
            5 8)).take shortIdLength := by
    rw [hteq2]
  rw [e1, e2, htxeq, houtseq, hhash, hregroup, hbech]

theorem shortId_deterministic_witness :
    sampleTestNonP2sh.shortId = sampleTestGrpP2sh20.shortId :=
  shortId_deterministic trivialCodec trivialCodec
    (constGenerateScenario (GenerateScenarioResult.success () () 0))
    (constGenerateScenario (GenerateScenarioResult.success () () 0))
    sampleDefinition sampleDefinition "" "grp" 5 samplePlan samplePlan
    sampleRunMaster sampleRunMasterGrp 0 1 planNonP2shItem planP2sh20Item
    sampleTestNonP2sh sampleTestGrpP2sh20 () () 0 () () 0
    rfl rfl rfl
    (by decide) (by rfl) (by decide) (by decide) rfl
    (by decide) (by rfl) (by decide) (by decide) rfl
    rfl rfl

/-- C9: a generated master vector omits the optional `inputIndex` exactly when
the scenario program's input index is `0`, and otherwise carries that index;
and `vmbTestPartitionMasterTestList` gives each partitioned entry the same
optional `inputIndex` as its master entry (every other field also unchanged,
the entry being the master entry stripped of `testSets`). -/
theorem inputIndex_field_spec :
    (∀ (S Tx Outs : Type) (C : Codec Tx Outs)
      (gen : Template S → String → GenerateScenarioResult Tx Outs)
      (d : VmbTestDefinition S) (groupName : String) (shortIdLength : Nat)
      (plan : TestPlan) (results : List VmbTestMasterBCH) (i : Nat)
      (item : TestPlanItem) (t : VmbTestMasterBCH) (tx : Tx) (outs : Outs) (idx : Nat),
      planTestsBCH d.testSetOverrideLabels = some plan →
      vmbTestDefinitionToVmbTests C gen d groupName shortIdLength = Except.ok results →
      plan[i]? = some item → results[i]? = some t →
      gen (vmbTestTemplate d) (unlockingScriptIdForMode item.mode) =
        GenerateScenarioResult.success tx outs idx →
      ((t.inputIndex = none ↔ idx = 0) ∧ (idx ≠ 0 → t.inputIndex = some idx))) ∧
    (∀ (L : List VmbTestMasterBCH) (setId : String) (vs : List VmbTest),
      (setId, vs) ∈ vmbTestPartitionMasterTestList L →
      ∀ v ∈ vs, ∃ m ∈ L, v = stripTestSets m ∧ v.inputIndex = m.inputIndex) := by
  constructor
  · intro S Tx Outs C gen d groupName shortIdLength plan results i item t tx outs idx
      hplan hres hi ht hg
    obtain ⟨tx2, outs2, idx2, hg2, hteq⟩ :=
      generated_test_eq C gen d groupName shortIdLength plan results i item t hplan hres hi ht
    rw [hg] at hg2
    injection hg2 with h1 h2 h3
    subst h3
    have e : t.inputIndex = if idx = 0 then none else some idx := by
      rw [hteq]
    by_cases h0 : idx = 0
    · simp [e, h0]
    · simp [e, h0]
  · intro L setId vs hmem v hv
    obtain ⟨m, hm, hvm⟩ := partition_values hmem v hv
    exact ⟨m, hm, hvm, by rw [hvm]; rfl⟩

theorem inputIndex_field_spec_witness :
    ((sampleTestNonP2sh.inputIndex = none ↔ (0 : Nat) = 0) ∧
      ((0 : Nat) ≠ 0 → sampleTestNonP2sh.inputIndex = some 0)) ∧
    (∀ v ∈ [stripTestSets (sampleMaster ["set_a"] (some 2))],
      ∃ m ∈ [sampleMaster ["set_a"] (some 2)],
        v = stripTestSets m ∧ v.inputIndex = m.inputIndex) :=
  ⟨inputIndex_field_spec.1 Unit Unit Unit trivialCodec
     (constGenerateScenario (GenerateScenarioResult.success () () 0))
     sampleDefinition "" 5 samplePlan sampleRunMaster 0 planNonP2shItem
     sampleTestNonP2sh () () 0 (by decide) (by rfl) (by decide) (by decide) rfl,
   inputIndex_field_spec.2 [sampleMaster ["set_a"] (some 2)] "set_a"
     [stripTestSets (sampleMaster ["set_a"] (some 2))] (by decide)⟩

/-- C5: the generation script writes exactly these files: the serialized
flattened master list (`flat(2)` of `vmbTestsBch`) to `bch_vmb_tests.json`
under the output directory, and, for each entry of the partitioned map — whose
test lists are all non-empty — that entry's serialized test list to
`bch_vmb_tests_<setName>.json` (under the `CHIPs` subdirectory when the set
name contains `'chip'`); nothing else is written. -/
theorem vmbTestsFiles_spec (outputAbsolutePath : String)
    (stringifyMaster : List VmbTestMasterBCH → String)
    (stringifyTestSet : List VmbTest → String)
    (vmbTestsBch : List (List (List VmbTestMasterBCH))) (p c : String) :
    (p, c) ∈ vmbTestsFiles outputAbsolutePath stringifyMaster stringifyTestSet vmbTestsBch ↔
      (p = outputAbsolutePath ++ "/bch_vmb_tests.json" ∧
        c = stringifyMaster vmbTestsBch.flatten.flatten) ∨
      (∃ setId vs,
        (setId, vs) ∈ vmbTestPartitionMasterTestList vmbTestsBch.flatten.flatten ∧
        vs ≠ [] ∧ p = testSetFilePath outputAbsolutePath setId ∧
        c = stringifyTestSet vs) := by
  simp only [vmbTestsFiles]
  constructor
  · intro hmem
    rcases List.mem_cons.mp hmem with heq | hmem2
    · left
      simp only [Prod.mk.injEq] at heq
      exact heq
    · right
      obtain ⟨kv, hkv, hf⟩ := List.mem_map.mp hmem2
      simp only [Prod.mk.injEq] at hf
      exact ⟨kv.1, kv.2, by simpa using hkv,
        partition_nonempty vmbTestsBch.flatten.flatten kv hkv, hf.1.symm, hf.2.symm⟩
  · intro h
    rcases h with ⟨hp, hc⟩ | ⟨setId, vs, hmem, _, hp, hc⟩
    · subst hp
      subst hc
      exact List.mem_cons_self _ _
    · subst hp
      subst hc
      exact List.mem_cons_of_mem _ (List.mem_map.mpr ⟨(setId, vs), hmem, rfl⟩)

end VmbTests
